import Mathlib

/-
Verification development for the countries-informer service.

The development embeds, shallowly, the three source modules:
  geo/clients/weather.py  (WeatherClient)
  geo/clients/shemas.py   (the pydantic DTO models)
  news/services/news.py   (NewsService)
External collaborators that are referenced but whose code is not part of
the embedded sources (the news provider client, the Country Service, the
Django ORM models and its persisted store) are modelled explicitly; each
such definition carries a doc comment saying so.

Python machine floats are modelled as rationals; raised Python exceptions
are modelled with an explicit error type and Except.
-/

set_option maxHeartbeats 1000000

namespace CountriesInformer

/-- Raised Python errors that the embedded code can produce:
Country.DoesNotExist (a NotFound kind), KeyError and IndexError and
TypeError from subscription of JSON values, pydantic ValidationError,
and an uncaught httpx transport exception. -/
inductive PyError where
  | notFound
  | keyError
  | indexError
  | typeError
  | validationError
  | transportError
  deriving DecidableEq

/-- Shallow model of a parsed JSON value, as produced by response.json().
Numbers are modelled as rationals. -/
inductive Json where
  | null : Json
  | bool (b : Bool) : Json
  | num (q : Rat) : Json
  | str (s : String) : Json
  | arr (items : List Json) : Json
  | obj (fields : List (String × Json)) : Json

/-- Python subscription value[key] on a JSON value: on a dict, the value
under the first matching key or a raised KeyError; on anything else a
raised TypeError. -/
def Json.item : Json → String → Except PyError Json
  | Json.obj fields, k =>
    match fields.find? (fun p => p.1 == k) with
    | some p => Except.ok p.2
    | none => Except.error PyError.keyError
  | _, _ => Except.error PyError.typeError

/-- Python subscription value[i] with a numeric index: on a list, the
element at position i or a raised IndexError; on anything else a raised
TypeError. -/
def Json.idx : Json → Nat → Except PyError Json
  | Json.arr items, i =>
    match items.get? i with
    | some v => Except.ok v
    | none => Except.error PyError.indexError
  | _, _ => Except.error PyError.typeError

/-- Python truthiness of a JSON value: None, False, 0, the empty string,
the empty list and the empty dict are falsy, everything else truthy. -/
def pyTruthyJson : Json → Bool
  | Json.null => false
  | Json.bool b => b
  | Json.num q => !(q == 0)
  | Json.str s => !s.isEmpty
  | Json.arr items => !items.isEmpty
  | Json.obj fields => !fields.isEmpty

/-- WeatherInfoDTO from geo/clients/shemas.py.  The pydantic datetime
field dt is represented by the integer POSIX timestamp it is parsed
from. -/
structure WeatherInfoDTO where
  temp : Rat
  pressure : Int
  humidity : Int
  wind_speed : Rat
  description : String
  visibility : Int
  dt : Int
  timezone : Int
  deriving DecidableEq

/-- Pydantic validation of a float field: accepts a JSON number.
Coercions from strings are not exercised by any claim and are modelled
as validation failure. -/
def Json.asFloat : Json → Except PyError Rat
  | Json.num q => Except.ok q
  | _ => Except.error PyError.validationError

/-- Pydantic validation of an int field (and of the datetime field dt,
which is parsed from an integer timestamp): accepts an integral JSON
number.  Non-integral and non-numeric inputs are not exercised by any
claim and are modelled as validation failure. -/
def Json.asInt : Json → Except PyError Int
  | Json.num q =>
    if q.den = 1 then Except.ok q.num else Except.error PyError.validationError
  | _ => Except.error PyError.validationError

/-- Pydantic validation of a str field: accepts a JSON string. -/
def Json.asStr : Json → Except PyError String
  | Json.str s => Except.ok s
  | _ => Except.error PyError.validationError

/-- An HTTP response from the weather provider: status code and parsed
JSON body. -/
structure HttpResponse where
  status : Nat
  body : Json

/-- Outcome of the outbound HTTP GET issued by httpx: either a
request-level failure (timeout, connection error — httpx raises) or a
response. -/
inductive TransportResult where
  | failure : TransportResult
  | response (r : HttpResponse) : TransportResult

namespace WeatherClient

/-- WeatherClient._request from geo/clients/weather.py: on a response
with status HTTPStatus.OK returns the parsed JSON body, on any other
status returns None.  A request-level failure of client.get is not
caught anywhere in the function, so it propagates as a raised error. -/
def _request (t : TransportResult) : Except PyError (Option Json) :=
  match t with
  | TransportResult.failure => Except.error PyError.transportError
  | TransportResult.response r =>
    if r.status == 200 then Except.ok (some r.body) else Except.ok none

/-- The WeatherInfoDTO construction inside WeatherClient.get_weather:
projects the nested fields out of the JSON body by subscription (each
subscription may raise) and validates them as the DTO fields. -/
def buildWeatherInfo (result : Json) : Except PyError WeatherInfoDTO := do
  let mainTemp ← (← result.item "main").item "temp"
  let mainPressure ← (← result.item "main").item "pressure"
  let mainHumidity ← (← result.item "main").item "humidity"
  let windSpeed ← (← result.item "wind").item "speed"
  let descriptionJ ← (← (← result.item "weather").idx 0).item "description"
  let visibilityJ ← result.item "visibility"
  let dtJ ← result.item "dt"
  let timezoneJ ← result.item "timezone"
  let temp ← mainTemp.asFloat
  let pressure ← mainPressure.asInt
  let humidity ← mainHumidity.asInt
  let wind_speed ← windSpeed.asFloat
  let description ← descriptionJ.asStr
  let visibility ← visibilityJ.asInt
  let dt ← dtJ.asInt
  let timezone ← timezoneJ.asInt
  Except.ok (WeatherInfoDTO.mk temp pressure humidity wind_speed description
    visibility dt timezone)

/-- WeatherClient.get_weather from geo/clients/weather.py: issues the
request, and evaluates the conditional expression
WeatherInfoDTO(...) if result else None — so a falsy result (absent
body, or a falsy JSON value such as an empty dict) yields None, and a
truthy result is projected into the DTO. -/
def get_weather (t : TransportResult) : Except PyError (Option WeatherInfoDTO) :=
  match _request t with
  | Except.error e => Except.error e
  | Except.ok none => Except.ok none
  | Except.ok (some result) =>
    if pyTruthyJson result then
      match buildWeatherInfo result with
      | Except.ok w => Except.ok (some w)
      | Except.error e => Except.error e
    else Except.ok none

end WeatherClient

/-- Modelled from the spec: a raw news item as returned by the news
provider via the News Client (news/clients/shemas.py is not among the
embedded sources).  Fields source, title, published_at are always
present; author, description, url are optional. -/
structure NewsItemDTO where
  source : String
  author : Option String
  title : String
  description : Option String
  url : Option String
  published_at : String
  deriving DecidableEq

/-- Modelled from the spec: a persisted Country row (geo/models.py is
not among the embedded sources); only the primary key and the alpha-2
code are relevant to the embedded code. -/
structure CountryRow where
  pk : Nat
  alpha2code : String
  deriving DecidableEq

/-- Modelled from the spec: a persisted News row (news/models.py is not
among the embedded sources): a foreign reference to a persisted
Country, plus the mapped item fields. -/
structure NewsRow where
  country : CountryRow
  source : String
  author : String
  title : String
  description : String
  url : String
  published_at : String
  deriving DecidableEq

/-- Modelled from the spec: the persisted relational store, holding the
Country and News tables. -/
structure Store where
  countries : List CountryRow
  news : List NewsRow
  deriving DecidableEq

/-- Whether the needle list occurs as a leading segment of the haystack
list. -/
def listLeads : List Char → List Char → Bool
  | [], _ => true
  | _ :: _, [] => false
  | a :: as, b :: bs => a == b && listLeads as bs

/-- Whether the needle list occurs contiguously anywhere inside the
haystack list. -/
def listInside (needle : List Char) : List Char → Bool
  | [] => listLeads needle []
  | c :: t => listLeads needle (c :: t) || listInside needle t

/-- Django field lookup alpha2code__contains=country_code: substring
containment of the needle in the haystack. -/
def strContains (haystack needle : String) : Bool :=
  listInside needle.toList haystack.toList

/-- Python truthiness of an Optional list: None and the empty list are
falsy. -/
def pyTruthyOptList {α : Type} : Option (List α) → Bool
  | none => false
  | some l => !l.isEmpty

/-- Python expression x if x else "" on an Optional string: None and
the empty string both map to the empty string, any other string maps to
itself. -/
def pyStrOrEmpty : Option String → String
  | some s => if s == "" then "" else s
  | none => ""

/-- The check codes is None or country_code not in codes (and likewise
codes is None or codes.get(country_code, None) is None — the two
coincide because the mapping holds non-null ids): the country code does
not resolve through the codes mapping. -/
def codeUnresolved (codes : Option (List (String × Nat))) (country_code : String) : Bool :=
  match codes with
  | none => true
  | some m => (m.lookup country_code).isNone

/-- Modelled from the spec: the external collaborators of NewsService
(news/clients/news.py and geo/services/country.py are not among the
embedded sources).
newsResp is the stream of results of successive NewsClient().get_news
calls, indexed by a global invocation counter — the provider returns
absent (not an empty list) when it has no data, and two distinct
invocations are independent fresh fetches.
codes is CountryService().get_countries_codes(), a mapping from alpha-2
code to internal id (or absent), read from the persisted countries.
fetchCountry is CountryService().get_countries(country_code), which
fetches and persists country metadata, transforming the persisted
Country table. -/
structure Env where
  newsResp : Nat → String → Option (List NewsItemDTO)
  codes : List CountryRow → Option (List (String × Nat))
  fetchCountry : String → List CountryRow → List CountryRow

namespace NewsService

/-- NewsService.build_model from news/services/news.py: resolves the
persisted country by primary key — Country.objects.get(pk=country_id)
raises Country.DoesNotExist when absent — and maps the item fields,
null-coalescing author, description and url through x if x else "". -/
def build_model (db : Store) (news_item : NewsItemDTO) (country_id : Nat) :
    Except PyError NewsRow :=
  match db.countries.find? (fun c => c.pk == country_id) with
  | none => Except.error PyError.notFound
  | some c =>
    Except.ok
      { country := c
        source := news_item.source
        author := pyStrOrEmpty news_item.author
        title := news_item.title
        description := pyStrOrEmpty news_item.description
        url := pyStrOrEmpty news_item.url
        published_at := news_item.published_at }

/-- The list comprehension building one News row per raw item inside
save_news: left to right, propagating the first raised error. -/
def buildAll (db : Store) (country_pk : Nat) : List NewsItemDTO →
    Except PyError (List NewsRow)
  | [] => Except.ok []
  | news_item :: rest =>
    match build_model db news_item country_pk with
    | Except.error e => Except.error e
    | Except.ok row =>
      match buildAll db country_pk rest with
      | Except.error e => Except.error e
      | Except.ok rows => Except.ok (row :: rows)

/-- Splitting a list into consecutive groups of at most n elements, as
Django does for a bulk insert with batch_size=n. -/
def chunkList {α : Type} (n : Nat) (l : List α) : List (List α) :=
  if l.isEmpty then []
  else if n = 0 then [l]
  else l.take n :: chunkList n (l.drop n)
termination_by l.length
decreasing_by
  simp only [List.length_drop]
  rename_i hne hn
  have hpos : 0 < l.length := by
    cases l with
    | nil => simp [List.isEmpty] at hne
    | cons a t => simp
  omega

/-- Django News.objects.bulk_create(objs, batch_size=1000): appends the
rows to the News table, writing them in batches of at most batch_size
rows; the performed insert batches are returned alongside the new
store. -/
def bulk_create (db : Store) (objs : List NewsRow) (batch_size : Nat) :
    Store × List (List NewsRow) :=
  ({ db with news := db.news ++ objs }, chunkList batch_size objs)

/-- NewsService.save_news from news/services/news.py: nothing happens
on a falsy (empty) input list; otherwise the rows are built by the
comprehension and bulk-inserted with batch_size=1000.  The result
carries the updated store and the list of insert batches performed. -/
def save_news (db : Store) (country_pk : Nat) (news : List NewsItemDTO) :
    Except PyError (Store × List (List NewsRow)) :=
  if news.isEmpty then Except.ok (db, [])
  else
    match buildAll db country_pk news with
    | Except.error e => Except.error e
    | Except.ok rows => Except.ok (bulk_create db rows 1000)

/-- The local query News.objects.filter(Q(country__alpha2code__contains=
country_code)). -/
def localNews (db : Store) (country_code : String) : List NewsRow :=
  db.news.filter (fun r => strContains r.country.alpha2code country_code)

/-- NewsService.get_news from news/services/news.py, evaluated against
the environment env with k the number of NewsClient invocations already
performed.  Returns the store after the call, the new invocation
counter, and the value returned to the caller.  The control flow is the
one of the source: the trailing return NewsClient().get_news(
country_code) executes on every path that does not return None early,
so the statements after it (the bulk_create of the fetched items and
the final return news) are unreachable and are not part of the
function's behaviour. -/
def get_news (env : Env) (db : Store) (k : Nat) (country_code : String) :
    Store × Nat × Option (List NewsItemDTO) :=
  let news := localNews db country_code
  if news.isEmpty then
    let news_data := env.newsResp k country_code
    if pyTruthyOptList news_data then
      let codes := env.codes db.countries
      if codeUnresolved codes country_code then
        let countries2 := env.fetchCountry country_code db.countries
        let codes2 := env.codes countries2
        if codeUnresolved codes2 country_code then
          ({ db with countries := countries2 }, k + 1, none)
        else
          ({ db with countries := countries2 }, k + 2, env.newsResp (k + 1) country_code)
      else (db, k + 2, env.newsResp (k + 1) country_code)
    else (db, k + 2, env.newsResp (k + 1) country_code)
  else (db, k + 1, env.newsResp k country_code)

end NewsService

/-- LocationDTO from geo/clients/shemas.py. -/
structure LocationDTO where
  city : String
  alpha2code : String
  deriving DecidableEq

/-- Pydantic construction of LocationDTO: the alpha2code field carries
Field(min_length=2, max_length=2), so construction validates that the
code has exactly two characters and raises ValidationError otherwise. -/
def LocationDTO.make (city alpha2code : String) : Except PyError LocationDTO :=
  if 2 ≤ alpha2code.length ∧ alpha2code.length ≤ 2 then
    Except.ok { city := city, alpha2code := alpha2code }
  else Except.error PyError.validationError

/-- CurrencyInfoDTO from geo/clients/shemas.py. -/
structure CurrencyInfoDTO where
  code : String
  deriving DecidableEq

/-- LanguagesInfoDTO from geo/clients/shemas.py. -/
structure LanguagesInfoDTO where
  name : String
  native_name : String
  deriving DecidableEq

/-- CountryShortDTO from geo/clients/shemas.py: plain str fields, no
constraint is declared on alpha2code. -/
structure CountryShortDTO where
  name : String
  alpha2code : String
  deriving DecidableEq

/-- Pydantic construction of CountryShortDTO: both fields are plain str
fields with no declared constraint, so any strings are accepted. -/
def CountryShortDTO.make (name alpha2code : String) : Except PyError CountryShortDTO :=
  Except.ok { name := name, alpha2code := alpha2code }

/-- CountryDTO from geo/clients/shemas.py, extending CountryShortDTO;
the set-valued fields are carried as lists of their elements. -/
structure CountryDTO extends CountryShortDTO where
  alpha3code : String
  capital : String
  region : String
  subregion : String
  population : Int
  latitude : Rat
  longitude : Rat
  demonym : String
  area : Rat
  numeric_code : String
  flag : String
  currencies : List CurrencyInfoDTO
  languages : List LanguagesInfoDTO
  deriving DecidableEq

/-- Pydantic construction of CountryDTO: none of its fields declares a
constraint (in particular the inherited alpha2code remains a plain str
field), so construction accepts any well-typed field values. -/
def CountryDTO.make (name alpha2code alpha3code capital region subregion : String)
    (population : Int) (latitude longitude : Rat) (demonym : String) (area : Rat)
    (numeric_code flag : String) (currencies : List CurrencyInfoDTO)
    (languages : List LanguagesInfoDTO) : Except PyError CountryDTO :=
  Except.ok
    { name := name, alpha2code := alpha2code, alpha3code := alpha3code
      capital := capital, region := region, subregion := subregion
      population := population, latitude := latitude, longitude := longitude
      demonym := demonym, area := area, numeric_code := numeric_code
      flag := flag, currencies := currencies, languages := languages }

/-- A JSON value on which a subscription succeeds is a dict with at
least one entry, hence truthy. -/
theorem pyTruthyJson_of_item {j v : Json} {k : String}
    (h : j.item k = Except.ok v) : pyTruthyJson j = true := by
  cases j with
  | null => simp [Json.item] at h
  | bool b => simp [Json.item] at h
  | num q => simp [Json.item] at h
  | str s => simp [Json.item] at h
  | arr items => simp [Json.item] at h
  | obj fields =>
    cases fields with
    | nil => simp [Json.item, List.find?] at h
    | cons a t => simp [pyTruthyJson, List.isEmpty]

/-- C4: on a provider response with HTTP status 200 and a well-formed
JSON body, WeatherClient.get_weather returns a populated WeatherInfo
whose fields equal the nested values of the body: temp = main.temp,
pressure = main.pressure, humidity = main.humidity, wind_speed =
wind.speed, description = weather[0].description, plus visibility, dt
and timezone from the top level. -/
theorem get_weather_success_projects_fields
    (body mainJ windJ weatherJ w0 : Json)
    (temp ws pq hq vq dq tq : Rat) (descr : String)
    (hmain : body.item "main" = Except.ok mainJ)
    (htemp : mainJ.item "temp" = Except.ok (Json.num temp))
    (hpress : mainJ.item "pressure" = Except.ok (Json.num pq)) (hpd : pq.den = 1)
    (hhum : mainJ.item "humidity" = Except.ok (Json.num hq)) (hhd : hq.den = 1)
    (hwind : body.item "wind" = Except.ok windJ)
    (hspeed : windJ.item "speed" = Except.ok (Json.num ws))
    (hweather : body.item "weather" = Except.ok weatherJ)
    (hw0 : weatherJ.idx 0 = Except.ok w0)
    (hdescr : w0.item "description" = Except.ok (Json.str descr))
    (hvis : body.item "visibility" = Except.ok (Json.num vq)) (hvd : vq.den = 1)
    (hdt : body.item "dt" = Except.ok (Json.num dq)) (hdd : dq.den = 1)
    (htz : body.item "timezone" = Except.ok (Json.num tq)) (htd : tq.den = 1) :
    WeatherClient.get_weather (TransportResult.response (HttpResponse.mk 200 body)) =
      Except.ok (some (WeatherInfoDTO.mk temp pq.num hq.num ws descr
        vq.num dq.num tq.num)) := by
  have htruthy : pyTruthyJson body = true := pyTruthyJson_of_item hmain
  simp [WeatherClient.get_weather, WeatherClient._request, htruthy,
    WeatherClient.buildWeatherInfo, hmain, htemp, hpress, hhum, hwind, hspeed,
    hweather, hw0, hdescr, hvis, hdt, htz, Json.asFloat, Json.asInt, Json.asStr,
    hpd, hhd, hvd, hdd, htd, bind, Except.bind]

/-- The example body of the spec, as a concrete JSON value. -/
def exampleWeatherBody : Json :=
  Json.obj
    [("main", Json.obj [("temp", Json.num (1392/100)), ("pressure", Json.num 1023),
        ("humidity", Json.num 54)]),
     ("wind", Json.obj [("speed", Json.num (463/100))]),
     ("weather", Json.arr [Json.obj [("description", Json.str "scattered clouds")]]),
     ("visibility", Json.num 10000),
     ("dt", Json.num 1661870592),
     ("timezone", Json.num 7200)]

/-- Witness for C4 at the example body of the spec. -/
theorem get_weather_success_projects_fields_witness :
    WeatherClient.get_weather (TransportResult.response
        (HttpResponse.mk 200 exampleWeatherBody)) =
      Except.ok (some (WeatherInfoDTO.mk (1392/100) 1023 54 (463/100)
        "scattered clouds" 10000 1661870592 7200)) := by
  have h := get_weather_success_projects_fields exampleWeatherBody
    (Json.obj [("temp", Json.num (1392/100)), ("pressure", Json.num 1023),
      ("humidity", Json.num 54)])
    (Json.obj [("speed", Json.num (463/100))])
    (Json.arr [Json.obj [("description", Json.str "scattered clouds")]])
    (Json.obj [("description", Json.str "scattered clouds")])
    (1392/100) (463/100) 1023 54 10000 1661870592 7200 "scattered clouds"
    rfl rfl rfl rfl rfl rfl rfl rfl rfl rfl rfl rfl rfl rfl rfl rfl rfl
  exact h

/-- C5 counterexample: a request-level failure is not caught by
WeatherClient._request, so get_weather raises the transport error to
the caller instead of returning absent. -/
theorem get_weather_request_failure_raises :
    WeatherClient.get_weather TransportResult.failure =
      Except.error PyError.transportError := rfl

/-- C5 amended: on every provider response with a non-200 HTTP status,
WeatherClient.get_weather returns absent and raises no error; a
request-level failure, in contrast, propagates as a raised transport
error. -/
theorem get_weather_non200_absent (s : Nat) (body : Json) (h : s ≠ 200) :
    WeatherClient.get_weather (TransportResult.response (HttpResponse.mk s body)) =
      Except.ok none := by
  simp [WeatherClient.get_weather, WeatherClient._request, h]

/-- Witness for the amended C5 at status 404. -/
theorem get_weather_non200_absent_witness :
    (404 : Nat) ≠ 200 ∧
      WeatherClient.get_weather (TransportResult.response
        (HttpResponse.mk 404 Json.null)) = Except.ok none :=
  ⟨by decide, get_weather_non200_absent 404 Json.null (by decide)⟩

/-- C6 counterexample: a 200 response whose truthy JSON body lacks the
key main makes get_weather raise a KeyError instead of returning a
WeatherInfo or absent. -/
theorem get_weather_200_missing_key_raises :
    WeatherClient.get_weather (TransportResult.response
        (HttpResponse.mk 200 (Json.obj [("cod", Json.num 200)]))) =
      Except.error PyError.keyError := rfl

/-- C6 amended: on a 200 response, a falsy body (such as an empty dict)
yields absent, but parsing errors are not swallowed: a truthy body on
which the projection of main fails propagates that raised error to
the caller. -/
theorem get_weather_200_error_propagation (body : Json) :
    (pyTruthyJson body = false →
      WeatherClient.get_weather (TransportResult.response (HttpResponse.mk 200 body)) =
        Except.ok none) ∧
    (∀ e, pyTruthyJson body = true → body.item "main" = Except.error e →
      WeatherClient.get_weather (TransportResult.response (HttpResponse.mk 200 body)) =
        Except.error e) := by
  constructor
  · intro hf
    simp [WeatherClient.get_weather, WeatherClient._request, hf]
  · intro e ht hm
    simp [WeatherClient.get_weather, WeatherClient._request, ht,
      WeatherClient.buildWeatherInfo, hm, bind, Except.bind]

/-- Witness for the amended C6: the empty dict body yields absent, and
a truthy body without the key main raises a KeyError. -/
theorem get_weather_200_error_propagation_witness :
    WeatherClient.get_weather (TransportResult.response
        (HttpResponse.mk 200 (Json.obj []))) = Except.ok none ∧
      WeatherClient.get_weather (TransportResult.response
        (HttpResponse.mk 200 (Json.obj [("base", Json.str "stations")]))) =
        Except.error PyError.keyError :=
  ⟨(get_weather_200_error_propagation (Json.obj [])).1 rfl,
   (get_weather_200_error_propagation
     (Json.obj [("base", Json.str "stations")])).2 PyError.keyError rfl rfl⟩

/-- C7 counterexample: constructing a Country whose alpha2code has
three characters succeeds — no length validation is declared on the
Country models, only on Location. -/
theorem country_alpha2_unvalidated :
    CountryDTO.make "Aland Islands" "AXE" "ALA" "Mariehamn" "Europe"
        "Northern Europe" 28875 (601/10) (199/10) "Alandish" 1580
        "248" "flag.svg" [] [] ≠ Except.error PyError.validationError ∧
      "AXE".length ≠ 2 := by
  constructor
  · intro h
    simp [CountryDTO.make] at h
  · decide

/-- C7 amended: constructing a Location succeeds exactly when the
alpha2code has two characters and fails with ValidationError otherwise;
constructing a Country (short or full) performs no length validation on
alpha2code and succeeds for any string. -/
theorem alpha2_validation (city name a2 : String) :
    (a2.length = 2 →
      LocationDTO.make city a2 = Except.ok { city := city, alpha2code := a2 }) ∧
    (a2.length ≠ 2 →
      LocationDTO.make city a2 = Except.error PyError.validationError) ∧
    CountryShortDTO.make name a2 = Except.ok { name := name, alpha2code := a2 } := by
  refine ⟨?_, ?_, rfl⟩
  · intro h
    simp [LocationDTO.make, h]
  · intro h
    have hno : ¬(2 ≤ a2.length ∧ a2.length ≤ 2) := by omega
    simp [LocationDTO.make, hno]

/-- Witness for the amended C7 at a valid and an invalid code. -/
theorem alpha2_validation_witness :
    LocationDTO.make "Mariehamn" "AX" =
        Except.ok { city := "Mariehamn", alpha2code := "AX" } ∧
      LocationDTO.make "Mariehamn" "AXE" = Except.error PyError.validationError :=
  ⟨(alpha2_validation "Mariehamn" "x" "AX").1 (by decide),
   (alpha2_validation "Mariehamn" "x" "AXE").2.1 (by decide)⟩

/-- A null-coalesced field is the empty string exactly on a falsy
input. -/
theorem pyStrOrEmpty_default (o : Option String) (h : o = none ∨ o = some "") :
    pyStrOrEmpty o = "" := by
  rcases h with h | h <;> subst h <;> rfl

/-- A null-coalesced field keeps a non-empty input string. -/
theorem pyStrOrEmpty_keep (s : String) (h : s ≠ "") :
    pyStrOrEmpty (some s) = s := by
  simp [pyStrOrEmpty, h]

/-- C8: build_model fails with a NotFound kind when no persisted
Country has the given primary key; when one does, it returns a News row
attributed to that country whose source, title and published_at are the
raw fields unchanged and whose author, description and url are
null-coalesced: the empty string on an empty or absent input, the input
string otherwise (the last two conjuncts state the coalescing rule). -/
theorem build_model_spec (db : Store) (item : NewsItemDTO) (cid : Nat) :
    (db.countries.find? (fun c => c.pk == cid) = none →
      NewsService.build_model db item cid = Except.error PyError.notFound) ∧
    (∀ c, db.countries.find? (fun x => x.pk == cid) = some c →
      NewsService.build_model db item cid =
        Except.ok (NewsRow.mk c item.source (pyStrOrEmpty item.author) item.title
          (pyStrOrEmpty item.description) (pyStrOrEmpty item.url)
          item.published_at)) ∧
    (∀ o, (o = none ∨ o = some "") → pyStrOrEmpty o = "") ∧
    (∀ s, s ≠ "" → pyStrOrEmpty (some s) = s) := by
  refine ⟨?_, ?_, pyStrOrEmpty_default, pyStrOrEmpty_keep⟩
  · intro h
    simp [NewsService.build_model, h]
  · intro c hc
    simp [NewsService.build_model, hc]

/-- Concrete store and raw item exercising build_model. -/
def countryEE : CountryRow := { pk := 1, alpha2code := "EE" }

/-- Concrete raw news item with an absent author, an empty description
and a present url. -/
def itemNoAuthor : NewsItemDTO :=
  { source := "postimees", author := none, title := "headline"
    description := some "", url := some "http://news.ee/1"
    published_at := "2022-09-14" }

/-- Witness for C8: with author None the built row has an empty author,
the empty description stays empty, the present url passes through; and
on a store without the primary key build_model fails with NotFound. -/
theorem build_model_spec_witness :
    NewsService.build_model (Store.mk [countryEE] []) itemNoAuthor 1 =
        Except.ok (NewsRow.mk countryEE "postimees" "" "headline" ""
          "http://news.ee/1" "2022-09-14") ∧
      NewsService.build_model (Store.mk [] []) itemNoAuthor 1 =
        Except.error PyError.notFound :=
  ⟨(build_model_spec (Store.mk [countryEE] []) itemNoAuthor 1).2.1 countryEE rfl,
   (build_model_spec (Store.mk [] []) itemNoAuthor 1).1 rfl⟩

/-- Joining the batches of a chunked list gives back the list: the
batched bulk insert writes exactly the input rows. -/
theorem chunkList_join {α : Type} (n : Nat) (l : List α) :
    (NewsService.chunkList n l).flatten = l := by
  rw [NewsService.chunkList]
  by_cases he : l.isEmpty
  · simp [he, List.isEmpty_iff.mp he]
  · by_cases hn : n = 0
    · simp [he, hn]
    · have ih := chunkList_join n (l.drop n)
      simp [he, hn, ih]
termination_by l.length
decreasing_by
  simp only [List.length_drop]
  have hpos : 0 < l.length := by
    cases l with
    | nil => simp [List.isEmpty] at he
    | cons a t => simp
  omega

/-- Every batch of a chunked list has at most n elements when n is
positive. -/
theorem chunkList_batch_le {α : Type} (n : Nat) (hn : 0 < n) (l : List α) :
    ∀ b ∈ NewsService.chunkList n l, b.length ≤ n := by
  intro b hb
  rw [NewsService.chunkList] at hb
  by_cases he : l.isEmpty
  · simp [he] at hb
  · have hn0 : ¬ n = 0 := by omega
    simp only [he, hn0, if_false] at hb
    rcases List.mem_cons.mp hb with hb | hb
    · subst hb
      exact List.length_take_le n l
    · exact chunkList_batch_le n hn (l.drop n) b hb
termination_by l.length
decreasing_by
  simp only [List.length_drop]
  have hpos : 0 < l.length := by
    cases l with
    | nil => simp [List.isEmpty] at he
    | cons a t => simp
  omega

/-- A row produced by build_model is attributed to the requested
primary key. -/
theorem build_model_pk {db : Store} {item : NewsItemDTO} {cid : Nat} {row : NewsRow}
    (h : NewsService.build_model db item cid = Except.ok row) :
    row.country.pk = cid := by
  unfold NewsService.build_model at h
  cases hf : db.countries.find? (fun c => c.pk == cid) with
  | none => rw [hf] at h; cases h
  | some c =>
    rw [hf] at h
    cases h
    have hp := List.find?_some hf
    simpa using hp

/-- The row-building comprehension, when it succeeds, produces one row
per input item, each of them the build_model image of some input item. -/
theorem buildAll_ok (db : Store) (pk : Nat) :
    ∀ (l : List NewsItemDTO) (rows : List NewsRow),
      NewsService.buildAll db pk l = Except.ok rows →
      rows.length = l.length ∧
        ∀ row ∈ rows, ∃ item ∈ l, NewsService.build_model db item pk = Except.ok row := by
  intro l
  induction l with
  | nil =>
    intro rows h
    simp [NewsService.buildAll] at h
    subst h
    simp
  | cons item rest ih =>
    intro rows h
    rw [NewsService.buildAll] at h
    cases h1 : NewsService.build_model db item pk with
    | error e => rw [h1] at h; cases h
    | ok row =>
      rw [h1] at h
      cases h2 : NewsService.buildAll db pk rest with
      | error e => rw [h2] at h; cases h
      | ok rows2 =>
        rw [h2] at h
        cases h
        rcases ih rows2 h2 with ⟨hlen, hmem⟩
        constructor
        · simp [hlen]
        · intro r hr
          rcases List.mem_cons.mp hr with hr | hr
          · exact ⟨item, List.mem_cons_self item rest, by rw [← hr] at h1; exact h1⟩
          · rcases hmem r hr with ⟨it, hit, hbuild⟩
            exact ⟨it, List.mem_cons_of_mem item hit, hbuild⟩

/-- C9: save_news performs zero writes when the input list is empty
(the store is returned unchanged and no insert batch is issued); on a
non-empty list whose rows all build, it bulk-inserts exactly one News
row per input item — each the build_model image of an input item,
attributed to country_pk — in batches of at most 1000 rows whose
concatenation is exactly the inserted row list. -/
theorem save_news_spec (db : Store) (pk : Nat) (news : List NewsItemDTO) :
    (news = [] → NewsService.save_news db pk news = Except.ok (db, [])) ∧
    (∀ rows, news ≠ [] → NewsService.buildAll db pk news = Except.ok rows →
      NewsService.save_news db pk news =
          Except.ok ({ db with news := db.news ++ rows },
            NewsService.chunkList 1000 rows) ∧
        rows.length = news.length ∧
        (∀ row ∈ rows, row.country.pk = pk ∧
          ∃ item ∈ news, NewsService.build_model db item pk = Except.ok row) ∧
        (NewsService.chunkList 1000 rows).flatten = rows ∧
        (∀ b ∈ NewsService.chunkList 1000 rows, b.length ≤ 1000)) := by
  constructor
  · intro h
    subst h
    rfl
  · intro rows hne hb
    have hemp : news.isEmpty = false := by
      cases news with
      | nil => exact absurd rfl hne
      | cons a t => rfl
    refine ⟨?_, ?_, ?_, chunkList_join 1000 rows, chunkList_batch_le 1000 (by omega) rows⟩
    · simp [NewsService.save_news, hemp, hb, NewsService.bulk_create]
    · exact (buildAll_ok db pk news rows hb).1
    · intro row hrow
      rcases (buildAll_ok db pk news rows hb).2 row hrow with ⟨item, hitem, hbuild⟩
      exact ⟨build_model_pk hbuild, item, hitem, hbuild⟩

/-- Witness for C9: the empty list writes nothing, and a singleton list
inserts exactly its built row in one batch. -/
theorem save_news_spec_witness :
    NewsService.save_news (Store.mk [countryEE] []) 1 [] =
        Except.ok (Store.mk [countryEE] [], []) ∧
      NewsService.save_news (Store.mk [countryEE] []) 1 [itemNoAuthor] =
        Except.ok (Store.mk [countryEE]
          [NewsRow.mk countryEE "postimees" "" "headline" ""
            "http://news.ee/1" "2022-09-14"],
          [[NewsRow.mk countryEE "postimees" "" "headline" ""
            "http://news.ee/1" "2022-09-14"]]) := by
  constructor
  · exact (save_news_spec (Store.mk [countryEE] []) 1 []).1 rfl
  · have h := ((save_news_spec (Store.mk [countryEE] []) 1 [itemNoAuthor]).2
      [NewsRow.mk countryEE "postimees" "" "headline" "" "http://news.ee/1"
        "2022-09-14"]
      (by simp) rfl).1
    rw [h]
    rw [NewsService.chunkList, NewsService.chunkList]
    simp

/-- A concrete locally cached News row for the country EE. -/
def localRowEE : NewsRow :=
  { country := countryEE, source := "local", author := "", title := "cached"
    description := "", url := "", published_at := "2022-01-01" }

/-- A concrete store whose News table already holds a row whose country
alpha-2 code contains EE. -/
def dbEE : Store := { countries := [countryEE], news := [localRowEE] }

/-- A concrete raw item served by the remote news provider. -/
def remoteItemA : NewsItemDTO :=
  { source := "remote", author := none, title := "fresh-a"
    description := none, url := none, published_at := "2022-09-14" }

/-- Another concrete raw item, distinct from the first. -/
def remoteItemB : NewsItemDTO :=
  { source := "remote", author := none, title := "fresh-b"
    description := none, url := none, published_at := "2022-09-15" }

/-- A concrete environment: every invocation of the news provider
returns the same single item, the codes mapping is read off the
persisted countries, and fetching country metadata changes nothing. -/
def envEE : Env :=
  { newsResp := fun _ _ => some [remoteItemA]
    codes := fun countries => some (countries.map (fun c => (c.alpha2code, c.pk)))
    fetchCountry := fun _ countries => countries }

/-- A concrete environment whose news provider returns different data
on the first and on the second invocation. -/
def envSeq : Env :=
  { newsResp := fun k _ => if k = 0 then some [remoteItemA] else some [remoteItemB]
    codes := fun countries => some (countries.map (fun c => (c.alpha2code, c.pk)))
    fetchCountry := fun _ countries => countries }

/-- A concrete environment in which the news provider always reports
no data and no country code resolves. -/
def envNone : Env :=
  { newsResp := fun _ _ => none
    codes := fun _ => none
    fetchCountry := fun _ countries => countries }

/-- C1, evaluation at the failing input: the local store already holds
a News row whose country alpha-2 code contains EE, yet get_news still
invokes the remote news provider (the invocation counter rises from 0
to 1) and returns that fresh fetch instead of the local rows. -/
theorem get_news_local_hit_still_fetches :
    NewsService.localNews dbEE "EE" = [localRowEE] ∧
      NewsService.get_news envEE dbEE 0 "EE" = (dbEE, 1, some [remoteItemA]) := by
  constructor <;> rfl

/-- C2 counterexample: with a populated local store, two immediately
successive get_news calls each perform a fresh remote fetch, so when
the provider serves different data on the two invocations the two
calls return different results. -/
theorem get_news_not_idempotent :
    (NewsService.get_news envSeq dbEE 0 "EE").2.2 ≠
      (NewsService.get_news envSeq
        ((NewsService.get_news envSeq dbEE 0 "EE").1)
        ((NewsService.get_news envSeq dbEE 0 "EE").2.1) "EE").2.2 := by
  decide

/-- C2 amended: get_news never writes to the News table — the persisted
News rows are unchanged by any call, the build and persist logic after
the return being unreachable; but with a populated local store each of
two immediately successive calls returns a fresh remote fetch (the
first and the second provider invocation respectively), so the results
are identical only when the provider returns the same data twice. -/
theorem get_news_no_news_writes (env : Env) (db : Store) (k : Nat) (cc : String) :
    (NewsService.get_news env db k cc).1.news = db.news ∧
    ((NewsService.localNews db cc).isEmpty = false →
      (NewsService.get_news env db k cc).2.2 = env.newsResp k cc ∧
        (NewsService.get_news env ((NewsService.get_news env db k cc).1)
          ((NewsService.get_news env db k cc).2.1) cc).2.2 =
          env.newsResp (k + 1) cc) := by
  constructor
  · simp only [NewsService.get_news]
    split_ifs <;> rfl
  · intro hl
    simp [NewsService.get_news, hl]

/-- Witness for the amended C2 at the concrete populated store. -/
theorem get_news_no_news_writes_witness :
    (NewsService.get_news envEE dbEE 0 "EE").1.news = dbEE.news ∧
      (NewsService.get_news envEE dbEE 0 "EE").2.2 = envEE.newsResp 0 "EE" :=
  ⟨(get_news_no_news_writes envEE dbEE 0 "EE").1,
   ((get_news_no_news_writes envEE dbEE 0 "EE").2 (by decide)).1⟩

/-- C3: when the news provider signals no data as absent rather than as
an empty list — the representation the spec prescribes for the News
Client — every value returned by get_news is either absent or one of
the provider responses, so it is never an empty list. -/
theorem get_news_never_empty_list (env : Env) (db : Store) (k : Nat) (cc : String)
    (h : ∀ j c, env.newsResp j c ≠ some []) :
    (NewsService.get_news env db k cc).2.2 ≠ some [] := by
  simp only [NewsService.get_news]
  split_ifs <;> first
    | exact h k cc
    | exact h (k + 1) cc
    | simp

/-- Witness for C3 with an empty store and a provider with no data. -/
theorem get_news_never_empty_list_witness :
    (NewsService.get_news envNone (Store.mk [] []) 0 "ZZ").2.2 ≠ some [] :=
  get_news_never_empty_list envNone (Store.mk [] []) 0 "ZZ"
    (fun j c => by simp [envNone])

/-- C10: when no local rows match, the first provider fetch returns
data, and the country code resolves (directly or after the Country
Service fetch), the remote news provider is invoked a second time at
the return statement — the invocation counter rises by two — and the
value returned to the caller is the second invocation's response. -/
theorem get_news_refetches_on_fetch (env : Env) (db : Store) (k : Nat) (cc : String)
    (hloc : (NewsService.localNews db cc).isEmpty = true)
    (hdata : pyTruthyOptList (env.newsResp k cc) = true)
    (hres : codeUnresolved (env.codes db.countries) cc = false ∨
      codeUnresolved (env.codes (env.fetchCountry cc db.countries)) cc = false) :
    (NewsService.get_news env db k cc).2.1 = k + 2 ∧
      (NewsService.get_news env db k cc).2.2 = env.newsResp (k + 1) cc := by
  rcases hres with hres | hres
  · simp [NewsService.get_news, hloc, hdata, hres]
  · by_cases h1 : codeUnresolved (env.codes db.countries) cc = true
    · simp [NewsService.get_news, hloc, hdata, h1, hres]
    · have h1f : codeUnresolved (env.codes db.countries) cc = false := by
        cases hcu : codeUnresolved (env.codes db.countries) cc
        · rfl
        · exact absurd hcu h1
      simp [NewsService.get_news, hloc, hdata, h1f]

/-- Witness for C10: empty News table, known country, provider with
data — the counter goes from 0 to 2 and the second response is
returned. -/
theorem get_news_refetches_on_fetch_witness :
    (NewsService.get_news envEE (Store.mk [countryEE] []) 0 "EE").2.1 = 2 ∧
      (NewsService.get_news envEE (Store.mk [countryEE] []) 0 "EE").2.2 =
        envEE.newsResp 1 "EE" :=
  get_news_refetches_on_fetch envEE (Store.mk [countryEE] []) 0 "EE"
    (by decide) (by decide) (Or.inl (by decide))

end CountriesInformer
